import Mathlib

/-!
Verification of the GovESB integration core (`fast_api_builder/govesb/govesb.py`).

The development shallowly embeds the data model and operations of the module:
JSON values and the compact serializer used by `trim_payload`
(`json.dumps(payload, separators=(',', ':'))` with its default
`ensure_ascii=True` escaping), Python's `base64.b64decode` / `b64encode`
behaviour, the EC key pair operations (abstracted as functions on bytes),
the envelope builder `build_esb_payload`, the outbound flow `consume`, the
inbound acknowledgment flow `aconsume`, the token refresh
`request_esb_token`, and an interleaving model of concurrent
`get_instance` callers.

Python exceptions are modelled with `Except`: a value `.error e` means the
corresponding Python call raises `e` to its caller.
-/

mutual
/-- JSON values, mirroring the dict/list/str/int/bool/None payloads the
module serializes.  Mutual inductives (instead of nested `List`) keep all
functions structurally recursive and kernel-reducible.  Floats are not
modelled; no claim involves them. -/
inductive J where
  | null
  | bool (b : Bool)
  | num (n : Int)
  | str (s : String)
  | arr (elems : JList)
  | obj (fields : JFields)

/-- A JSON array's elements. -/
inductive JList where
  | nil
  | cons (head : J) (tail : JList)

/-- A JSON object's fields, in insertion order (Python dicts preserve
insertion order, and `json.dumps` serializes in that order). -/
inductive JFields where
  | nil
  | cons (key : String) (val : J) (tail : JFields)
end

/-- First-match lookup in an object, as Python `d[k]` / `d.get(k)` on a
dict (keys built by this module are distinct). -/
def JFields.lookup : JFields → String → Option J
  | .nil, _ => none
  | .cons k v tl, key => if k = key then some v else JFields.lookup tl key

/-- Concatenation of field lists (used to assemble the builder's
conditional inserts in insertion order). -/
def JFields.append : JFields → JFields → JFields
  | .nil, b => b
  | .cons k v tl, b => .cons k v (JFields.append tl b)

/-- The keys of an object in order. -/
def JFields.keys : JFields → List String
  | .nil => []
  | .cons k _ tl => k :: JFields.keys tl

/-- Embed a Python `List[int]` value. -/
def JList.ofInts : List Int → JList
  | [] => .nil
  | n :: tl => .cons (J.num n) (JList.ofInts tl)

/-- Embed a Python `List[str]` value. -/
def JList.ofStrs : List String → JList
  | [] => .nil
  | s :: tl => .cons (J.str s) (JList.ofStrs tl)

/-- Lowercase hex digit, as produced by `json.dumps` in `\uXXXX` escapes. -/
def hexDigit (n : Nat) : Char :=
  if n < 10 then Char.ofNat (48 + n) else Char.ofNat (87 + n)

/-- Four lowercase hex digits. -/
def hex4 (n : Nat) : String :=
  String.mk [hexDigit (n / 4096 % 16), hexDigit (n / 256 % 16),
             hexDigit (n / 16 % 16), hexDigit (n % 16)]

/-- Escaping of one character by `json.dumps` with `ensure_ascii=True`
(the default used by `trim_payload`): the two-character shortcuts of its
escape table, `\uXXXX` for other control characters and for every
character `≥ 0x7f`, surrogate pairs for astral characters. -/
def escapeChar (c : Char) : String :=
  if c = '"' then "\\\""
  else if c = '\\' then "\\\\"
  else if c = '\n' then "\\n"
  else if c = '\r' then "\\r"
  else if c = '\t' then "\\t"
  else if c = Char.ofNat 8 then "\\b"
  else if c = Char.ofNat 12 then "\\f"
  else if c.toNat < 32 then "\\u" ++ hex4 c.toNat
  else if c.toNat < 127 then String.singleton c
  else if c.toNat < 65536 then "\\u" ++ hex4 c.toNat
  else
    "\\u" ++ hex4 (55296 + (c.toNat - 65536) / 1024) ++
    "\\u" ++ hex4 (56320 + (c.toNat - 65536) % 1024)

/-- A JSON string literal as emitted by `json.dumps`. -/
def escapeJString (s : String) : String :=
  "\"" ++ String.join (s.data.map escapeChar) ++ "\""

mutual
/-- `json.dumps(value, separators=(',', ':'))`: compact serialization in
declared field order, comma/colon separators, no inserted whitespace. -/
def dumpJ : J → String
  | .null => "null"
  | .bool b => cond b "true" "false"
  | .num n => toString n
  | .str s => escapeJString s
  | .arr xs => "[" ++ dumpJList xs ++ "]"
  | .obj fs => "\x7b" ++ dumpJFields fs ++ "\x7d"

/-- Serialize array elements, comma-separated. -/
def dumpJList : JList → String
  | .nil => ""
  | .cons x .nil => dumpJ x
  | .cons x (.cons y tl) => dumpJ x ++ "," ++ dumpJList (.cons y tl)

/-- Serialize object fields, comma-separated, `key:value` with a colon. -/
def dumpJFields : JFields → String
  | .nil => ""
  | .cons k v .nil => escapeJString k ++ ":" ++ dumpJ v
  | .cons k v (.cons k2 v2 tl) =>
      escapeJString k ++ ":" ++ dumpJ v ++ "," ++ dumpJFields (.cons k2 v2 tl)
end

/-- `GovEsb.trim_payload`: `json.dumps(payload, separators=(',', ':'))` —
remove spaces and lines from the payload. -/
def trim_payload (payload : J) : String :=
  dumpJ payload

/-- Value of one base64 alphabet character (`A-Z`, `a-z`, `0-9`, `+`, `/`),
`none` for everything else (including the padding `=`). -/
def b64CharVal (c : Char) : Option Nat :=
  if 65 ≤ c.toNat ∧ c.toNat ≤ 90 then some (c.toNat - 65)
  else if 97 ≤ c.toNat ∧ c.toNat ≤ 122 then some (c.toNat - 71)
  else if 48 ≤ c.toNat ∧ c.toNat ≤ 57 then some (c.toNat + 4)
  else if c = '+' then some 62
  else if c = '/' then some 63
  else none

/-- The base64 alphabet character for a sextet. -/
def sextetChar (n : Nat) : Char :=
  if n < 26 then Char.ofNat (65 + n)
  else if n < 52 then Char.ofNat (97 + (n - 26))
  else if n < 62 then Char.ofNat (48 + (n - 52))
  else if n = 62 then '+'
  else '/'

/-- `base64.b64encode` on a byte list, producing the character groups
(4 characters per 3 bytes, `=`-padded final group). -/
def encodeGroups : List Nat → List Char
  | [] => []
  | [a] => [sextetChar (a / 4), sextetChar (a % 4 * 16), '=', '=']
  | [a, b] => [sextetChar (a / 4), sextetChar (a % 4 * 16 + b / 16),
               sextetChar (b % 16 * 4), '=']
  | a :: b :: c :: rest =>
      sextetChar (a / 4) :: sextetChar (a % 4 * 16 + b / 16) ::
      sextetChar (b % 16 * 4 + c / 64) :: sextetChar (c % 64) ::
      encodeGroups rest

/-- `base64.b64encode(bytes).decode("utf-8")`. -/
def b64EncodeBytes (bs : List Nat) : String :=
  String.mk (encodeGroups bs)

/-- Decode filtered base64 characters in groups of four; any other shape
raises `binascii.Error` ("Incorrect padding" and friends). -/
def decodeGroups : List Char → Except String (List Nat)
  | [] => .ok []
  | c1 :: c2 :: c3 :: c4 :: rest =>
    match b64CharVal c1, b64CharVal c2 with
    | some v1, some v2 =>
      if c3 = '=' then
        if c4 = '=' ∧ rest = [] then .ok [v1 * 4 + v2 / 16]
        else .error "Invalid base64-encoded string"
      else
        match b64CharVal c3 with
        | some v3 =>
          if c4 = '=' then
            if rest = [] then .ok [v1 * 4 + v2 / 16, v2 % 16 * 16 + v3 / 4]
            else .error "Invalid base64-encoded string"
          else
            match b64CharVal c4 with
            | some v4 =>
              match decodeGroups rest with
              | .ok bs => .ok ((v1 * 4 + v2 / 16) :: (v2 % 16 * 16 + v3 / 4) ::
                               (v3 % 4 * 64 + v4) :: bs)
              | .error e => .error e
            | none => .error "Invalid base64-encoded string"
        | none => .error "Invalid base64-encoded string"
    | _, _ => .error "Invalid base64-encoded string"
  | _ => .error "Incorrect padding"

/-- `base64.b64decode(s)` with its default `validate=False`: characters
outside the alphabet and padding are discarded, then the remainder must
decode in groups of four or `binascii.Error` is raised (modelled as
`.error`). -/
def pyB64Decode (s : String) : Except String (List Nat) :=
  decodeGroups (s.data.filter (fun c => (b64CharVal c).isSome || c = '='))

example : pyB64Decode "CA==" = .ok [8] := rfl
example : (pyB64Decode "abc").isOk = false := rfl

/-- Python exceptions that the module can raise to its callers. -/
inductive PyExc where
  | typeError
  | binasciiError
  | keyError (key : String)
  | attributeError
  | unboundLocal
deriving DecidableEq

/-- The EC key pair loaded from PEM, with its two abstract operations:
`sign m` is the DER signature bytes that `private_key.sign` produces for
the UTF-8 encoding of `m` (the injective encoding step is absorbed into
the abstract operation); `ecVerifyOk sig m = true` models
`public_key.verify` returning normally and `false` models it raising
`InvalidSignature` (covering cryptographic mismatch, curve mismatch and
malformed DER alike, as the `cryptography` library does). -/
structure ECKeyPair where
  sign : String → List Nat
  ecVerifyOk : List Nat → String → Bool

/-- `GovEsb.sign_payload`: ECDSA-sign the canonical bytes of the payload
and base64-encode the signature. -/
def sign_payload (kp : ECKeyPair) (payload : J) : String :=
  b64EncodeBytes (kp.sign (trim_payload payload))

/-- `GovEsb.verify_signature`: `b64decode` the signature argument —
raising `TypeError` on a non-string argument (such as `None`) and
`binascii.Error` on invalid base64, neither of which is caught, since the
`try` block only catches `InvalidSignature` — then verify it over the
canonical payload bytes, mapping `InvalidSignature` to `False`. -/
def verify_signature (kp : ECKeyPair) (signature : Option J) (payload : J) :
    Except PyExc Bool :=
  match signature with
  | some (J.str s) =>
    match pyB64Decode s with
    | .error _ => .error .binasciiError
    | .ok sigBytes => .ok (kp.ecVerifyOk sigBytes (trim_payload payload))
  | _ => .error .typeError

/-- Python truthiness of an `Optional[str]` argument: `None` and `""` are
falsy (the builder's `if api_code:` and `if message:` guards). -/
def truthyStr : Option String → Option String
  | some s => if s.isEmpty then none else some s
  | none => none

/-- Python truthiness of an optional list argument: `None` and `[]` are
falsy (the builder's `if errors:` and `if validation_errors:` guards). -/
def truthyList {α : Type} : Option (List α) → Option (List α)
  | some l => if l.isEmpty then none else some l
  | none => none

/-- One conditional field insert of the builder. -/
def optField (key : String) : Option J → JFields
  | some v => .cons key v .nil
  | none => .nil

/-- The `data` dict assembled by `build_esb_payload`, in its insertion
order: `esbBody` unconditionally first, then `apiCode` (if truthy),
`success` (if not `None` — an explicit `False` is kept), `message`,
`errors`, `validationErrors` (each if truthy). -/
def build_esb_data (payload : J) (api_code : Option String)
    (success : Option Bool) (message : Option String)
    (errors : Option (List Int))
    (validation_errors : Option (List String)) : JFields :=
  JFields.cons "esbBody" payload <|
  JFields.append (optField "apiCode" ((truthyStr api_code).map J.str)) <|
  JFields.append (optField "success" (success.map J.bool)) <|
  JFields.append (optField "message" ((truthyStr message).map J.str)) <|
  JFields.append
    (optField "errors" ((truthyList errors).map (fun l => J.arr (JList.ofInts l)))) <|
  optField "validationErrors"
    ((truthyList validation_errors).map (fun l => J.arr (JList.ofStrs l)))

/-- The wire envelope returned by `build_esb_payload`. -/
structure EsbEnvelope where
  data : JFields
  signature : String

/-- `GovEsb.build_esb_payload`: assemble the data dict and sign its
canonical bytes (`sign_payload` trims the `data` dict, not the whole
envelope). -/
def build_esb_payload (kp : ECKeyPair) (payload : J) (api_code : Option String)
    (success : Option Bool) (message : Option String)
    (errors : Option (List Int))
    (validation_errors : Option (List String)) : EsbEnvelope :=
  let data := build_esb_data payload api_code success message errors validation_errors
  { data := data, signature := sign_payload kp (J.obj data) }

/-- Pydantic `GovEsvData`: the uniform result of an outbound exchange. -/
structure GovEsvData where
  success : Bool
  requestId : Option String
  esbBody : J
  message : Option String
  errors : List Int
  validationErrors : List String

/-- Parse an optional string-or-null field (pydantic `Optional[str]`,
UUID format validation elided: any string is accepted for `requestId`). -/
def parseOptStr : Option J → Option (Option String)
  | none => some none
  | some J.null => some none
  | some (J.str s) => some (some s)
  | some _ => none

/-- Parse the elements of a `List[int]` field. -/
def parseInts : JList → Option (List Int)
  | .nil => some []
  | .cons (J.num n) tl => (parseInts tl).map (fun l => n :: l)
  | .cons _ _ => none

/-- Parse the elements of a `List[str]` field. -/
def parseStrs : JList → Option (List String)
  | .nil => some []
  | .cons (J.str s) tl => (parseStrs tl).map (fun l => s :: l)
  | .cons _ _ => none

/-- Parse a `List[int]` field with default `[]`. -/
def parseIntList : Option J → Option (List Int)
  | none => some []
  | some (J.arr xs) => parseInts xs
  | some _ => none

/-- Parse a `List[str]` field with default `[]`. -/
def parseStrList : Option J → Option (List String)
  | none => some []
  | some (J.arr xs) => parseStrs xs
  | some _ => none

/-- Pydantic validation of `GovEsvData` (non-bool coercions elided). -/
def parseGovEsvData : J → Option GovEsvData
  | J.obj fs =>
    (match JFields.lookup fs "success" with
    | some (J.bool b) =>
      match parseOptStr (JFields.lookup fs "requestId"),
            parseOptStr (JFields.lookup fs "message"),
            parseIntList (JFields.lookup fs "errors"),
            parseStrList (JFields.lookup fs "validationErrors") with
      | some rid, some msg, some errs, some verrs =>
          some { success := b, requestId := rid,
                 esbBody := (JFields.lookup fs "esbBody").getD (J.obj .nil),
                 message := msg, errors := errs, validationErrors := verrs }
      | _, _, _, _ => none
    | _ => none)
  | _ => none

/-- Pydantic validation `GovEsvResponse(**json)` followed by `.data`. -/
def parseGovEsvResponse : J → Option GovEsvData
  | J.obj fs =>
    (match JFields.lookup fs "signature" with
    | some (J.str _) =>
      match JFields.lookup fs "data" with
      | some d => parseGovEsvData d
      | none => none
    | _ => none)
  | _ => none

/-- Python `obj[key]` on a parsed JSON value: `KeyError` when the key is
missing, `TypeError` when the value is not a dict. -/
def jIndex : J → String → Except PyExc J
  | J.obj fs, key =>
    (match JFields.lookup fs key with
    | some v => .ok v
    | none => .error (.keyError key))
  | _, _ => .error .typeError

/-- Python `obj.get(key, default)`: `AttributeError` when `obj` is not a
dict. -/
def pyDictGet : J → String → J → Except PyExc J
  | J.obj fs, key, dflt => .ok ((JFields.lookup fs key).getD dflt)
  | _, _, _ => .error .attributeError

/-- Effects of the outbound flow, in program order: `postToBus` is the
`client.post` to `{engine_url}/request` (carrying the `access_token`
value interpolated into the `Authorization: Bearer` header), `logCall`
is `log_govesb_calls`, `logException` is `log_exception`.
`tokenRequest` is the token-endpoint POST performed only by
`request_esb_token`, listed so that its absence from a `consume` trace is
expressible. -/
inductive ConsumeEffect where
  | postToBus (bearer : Option J) (envelope : EsbEnvelope)
  | tokenRequest
  | logCall
  | logException

/-- A completed HTTP response: its status class, and its parsed JSON body
(`none` models `response.json()` raising on a malformed body). -/
structure HttpResp where
  is2xx : Bool
  body : Option J

/-- Outcome of `await client.post(...)` inside `consume`: either the call
itself raises (connection error, timeout — the local variable `response`
is then never bound) or a response object is returned. -/
inductive PostOutcome where
  | raised
  | completed (resp : HttpResp)

/-- Result and audit-effect trace of one `consume` call. -/
structure ConsumeOut where
  result : Except PyExc GovEsvData
  effects : List ConsumeEffect

/-- The uniform failure value built in `consume`'s `except` branch:
`GovEsvData(success=False, requestId=uuid.uuid4(), message=f"Failed to
consume from apiCode: {api_code}", esbBody={}, errors=[])`. -/
def consumeFailData (api_code : String) (freshId : String) : GovEsvData :=
  { success := false
    requestId := some freshId
    esbBody := J.obj .nil
    message := some ("Failed to consume from apiCode: " ++ api_code)
    errors := []
    validationErrors := [] }

/-- `GovEsb.consume`: POST the signed envelope, `raise_for_status`, parse
the JSON body, audit-log, verify the response signature, and validate the
response into `GovEsvData`.  Every exception of those steps is caught by
the `except` branch and converted to `consumeFailData` — except when the
POST itself raised: the branch then formats an f-string that reads the
local `response`, which was never bound, so `UnboundLocalError` escapes
to the caller.  `freshId` stands for the `uuid.uuid4()` drawn in the
failure branch; `access_token` is the stored token value used verbatim in
the bearer header (`consume` itself performs no token acquisition). -/
def consume (kp : ECKeyPair) (access_token : Option J) (payload : J)
    (api_code : String) (freshId : String) (outcome : PostOutcome) : ConsumeOut :=
  let post := ConsumeEffect.postToBus access_token
    (build_esb_payload kp payload (some api_code) none none none none)
  match outcome with
  | .raised =>
      { result := .error .unboundLocal
        effects := [post] }
  | .completed resp =>
      if resp.is2xx = false then
        { result := .ok (consumeFailData api_code freshId)
          effects := [post, .logException] }
      else
        match resp.body with
        | none =>
            { result := .ok (consumeFailData api_code freshId)
              effects := [post, .logException] }
        | some body =>
            match jIndex body "signature", jIndex body "data" with
            | .ok sigJ, .ok dataJ =>
                (match verify_signature kp (some sigJ) dataJ with
                | .ok true =>
                    (match parseGovEsvResponse body with
                    | some d =>
                        { result := .ok d
                          effects := [post, .logCall] }
                    | none =>
                        { result := .ok (consumeFailData api_code freshId)
                          effects := [post, .logCall, .logException] })
                | _ =>
                    { result := .ok (consumeFailData api_code freshId)
                      effects := [post, .logCall, .logException] })
            | _, _ =>
                { result := .ok (consumeFailData api_code freshId)
                  effects := [post, .logCall, .logException] }

/-- `GovEsb.aconsume`: verify the inbound envelope's signature over its
`data`; on verification failure build the fixed failure acknowledgment
without touching `process_feedback`; on success feed
`data.get('esbBody', )` to `process_feedback` and wrap its tuple into
the acknowledgment envelope.  `aconsume` has no `try` of its own, so an
exception raised by `verify_signature` (or by `.get` on a non-dict
`data`) propagates to the caller. -/
def aconsume (kp : ECKeyPair) (req_body : JFields)
    (process_feedback : J → Bool × Option String × J) : Except PyExc EsbEnvelope :=
  let data := (JFields.lookup req_body "data").getD (J.obj .nil)
  match verify_signature kp (JFields.lookup req_body "signature") data with
  | .error e => .error e
  | .ok false =>
      .ok (build_esb_payload kp (J.obj .nil) none (some false)
            (some "Signature verification failed!") none none)
  | .ok true =>
      match pyDictGet data "esbBody" (J.obj .nil) with
      | .error e => .error e
      | .ok arg =>
          match process_feedback arg with
          | (success, message, esbBody) =>
              .ok (build_esb_payload kp esbBody none (some success) message none none)

/-- The mutable token cell of the singleton: `self.access_token` and
`self.token_expiry` (both start as `None`). -/
structure TokenState where
  access_token : Option J
  token_expiry : Option Int

/-- Outcome of the token-endpoint POST inside `request_esb_token`:
`raised` covers a connection failure, `raise_for_status` on a non-2xx
status and a malformed JSON body (all raise before any assignment);
`respJson body` is a 2xx response with parsed JSON `body`. -/
inductive TokenOutcome where
  | raised
  | respJson (body : J)

/-- `GovEsb.request_esb_token`: POST to the token endpoint, then run
`self.access_token = data['access_token']` followed by
`self.token_expiry = time.time() + data['expires_in'] - 60`, with one
`except` returning `False` on any exception.  The two assignments are
sequential: a `KeyError` (or `TypeError`) raised while computing the new
expiry happens after `access_token` was already overwritten. -/
def request_esb_token (st : TokenState) (now : Int) (outcome : TokenOutcome) :
    TokenState × Bool :=
  match outcome with
  | .raised => (st, false)
  | .respJson body =>
    match jIndex body "access_token" with
    | .error _ => (st, false)
    | .ok tok =>
      match jIndex body "expires_in" with
      | .ok (J.num e) =>
          ({ access_token := some tok, token_expiry := some (now + e - 60) }, true)
      | _ =>
          ({ access_token := some tok, token_expiry := st.token_expiry }, false)

/-- Program counter of one concurrent `get_instance` caller whose token
check found the instance initialized: `check` is about to evaluate
`time.time() >= self.token_expiry`; `refreshing` is inside
`await request_esb_token()` (the awaited HTTP call, after which the new
expiry is stored); `finished` has returned.  The `await` between the
check and the refresh is a scheduling point, so other callers interleave
there; no lock is taken (`GovEsb._lock` only guards `__new__`). -/
inductive CallerPc where
  | check
  | refreshing
  | finished
deriving DecidableEq

/-- Shared state of `n` concurrent `get_instance` callers. -/
structure ConcState where
  token_expiry : Int
  httpCalls : Nat
  pcs : List CallerPc

/-- One atomic step of caller `i`: the expiry check, or the refresh
(one token-endpoint HTTP call that then installs a fresh expiry). -/
def get_instance_step (now tokenLife : Int) (i : Nat) (s : ConcState) : ConcState :=
  match s.pcs[i]? with
  | some CallerPc.check =>
      if s.token_expiry ≤ now then { s with pcs := s.pcs.set i .refreshing }
      else { s with pcs := s.pcs.set i .finished }
  | some CallerPc.refreshing =>
      { token_expiry := now + tokenLife, httpCalls := s.httpCalls + 1,
        pcs := s.pcs.set i .finished }
  | _ => s

/-- Run a schedule (a sequence of caller indices, each taking its next
step). -/
def get_instance_run (now tokenLife : Int) (sched : List Nat) (s : ConcState) :
    ConcState :=
  sched.foldl (fun st i => get_instance_step now tokenLife i st) s

/-- A concrete key pair for witnesses and counterexamples: it signs every
message with the byte string `[7]` and verification accepts exactly
`[7]`, so it satisfies the library's sign/verify round-trip contract and
rejects every other signature. -/
def demoKeyPair : ECKeyPair :=
  { sign := fun _ => [7]
    ecVerifyOk := fun sig _ => decide (sig = [7]) }

/-- Decoding the alphabet character of a sextet recovers the sextet. -/
theorem b64CharVal_sextetChar : ∀ n : Nat, n < 64 → b64CharVal (sextetChar n) = some n := by
  decide

/-- Sextet characters are never the padding character. -/
theorem sextetChar_ne_pad : ∀ n : Nat, n < 64 → sextetChar n ≠ '=' := by
  decide

/-- Characters kept by `pyB64Decode`'s discard filter include every
sextet character. -/
theorem b64_keep_sextetChar (n : Nat) (hn : n < 64) :
    ((b64CharVal (sextetChar n)).isSome || sextetChar n = '=') = true := by
  rw [b64CharVal_sextetChar n hn]
  rfl

/-- Every character emitted by `encodeGroups` survives the discard
filter of `pyB64Decode`. -/
theorem encodeGroups_keep :
    ∀ bs : List Nat, (∀ x ∈ bs, x < 256) →
      ∀ c ∈ encodeGroups bs, ((b64CharVal c).isSome || c = '=') = true
  | [], _, c, hc => by simp [encodeGroups] at hc
  | [a], h, c, hc => by
      have ha : a < 256 := h a (by simp)
      simp only [encodeGroups, List.mem_cons, List.not_mem_nil, or_false] at hc
      rcases hc with h1 | h1 | h1 | h1 <;> subst h1
      · exact b64_keep_sextetChar _ (by omega)
      · exact b64_keep_sextetChar _ (by omega)
      · rfl
      · rfl
  | [a, b], h, c, hc => by
      have ha : a < 256 := h a (by simp)
      have hb : b < 256 := h b (by simp)
      simp only [encodeGroups, List.mem_cons, List.not_mem_nil, or_false] at hc
      rcases hc with h1 | h1 | h1 | h1 <;> subst h1
      · exact b64_keep_sextetChar _ (by omega)
      · exact b64_keep_sextetChar _ (by omega)
      · exact b64_keep_sextetChar _ (by omega)
      · rfl
  | a :: b :: c0 :: rest, h, c, hc => by
      have ha : a < 256 := h a (by simp)
      have hb : b < 256 := h b (by simp)
      have hc0 : c0 < 256 := h c0 (by simp)
      simp only [encodeGroups, List.mem_cons] at hc
      rcases hc with h1 | h1 | h1 | h1 | h1
      · subst h1; exact b64_keep_sextetChar _ (by omega)
      · subst h1; exact b64_keep_sextetChar _ (by omega)
      · subst h1; exact b64_keep_sextetChar _ (by omega)
      · subst h1; exact b64_keep_sextetChar _ (by omega)
      · exact encodeGroups_keep rest (fun x hx => h x (by simp [hx])) c h1

/-- Decoding undoes encoding on byte lists. -/
theorem decodeGroups_encodeGroups :
    ∀ bs : List Nat, (∀ x ∈ bs, x < 256) →
      decodeGroups (encodeGroups bs) = .ok bs
  | [], _ => rfl
  | [a], h => by
      have ha : a < 256 := h a (by simp)
      have h1 := b64CharVal_sextetChar (a / 4) (by omega)
      have h2 := b64CharVal_sextetChar (a % 4 * 16) (by omega)
      simp [encodeGroups, decodeGroups, h1, h2]
      omega
  | [a, b], h => by
      have ha : a < 256 := h a (by simp)
      have hb : b < 256 := h b (by simp)
      have h1 := b64CharVal_sextetChar (a / 4) (by omega)
      have h2 := b64CharVal_sextetChar (a % 4 * 16 + b / 16) (by omega)
      have h3 := b64CharVal_sextetChar (b % 16 * 4) (by omega)
      have hne := sextetChar_ne_pad (b % 16 * 4) (by omega)
      simp [encodeGroups, decodeGroups, h1, h2, h3, hne]
      constructor <;> omega
  | a :: b :: c :: rest, h => by
      have ha : a < 256 := h a (by simp)
      have hb : b < 256 := h b (by simp)
      have hc : c < 256 := h c (by simp)
      have h1 := b64CharVal_sextetChar (a / 4) (by omega)
      have h2 := b64CharVal_sextetChar (a % 4 * 16 + b / 16) (by omega)
      have h3 := b64CharVal_sextetChar (b % 16 * 4 + c / 64) (by omega)
      have h4 := b64CharVal_sextetChar (c % 64) (by omega)
      have hne3 := sextetChar_ne_pad (b % 16 * 4 + c / 64) (by omega)
      have hne4 := sextetChar_ne_pad (c % 64) (by omega)
      have ih := decodeGroups_encodeGroups rest (fun x hx => h x (by simp [hx]))
      simp [encodeGroups, decodeGroups, h1, h2, h3, h4, hne3, hne4, ih]
      refine ⟨by omega, by omega, by omega⟩

/-- Round trip of Python's base64 codec on byte lists. -/
theorem pyB64Decode_b64EncodeBytes (bs : List Nat) (h : ∀ x ∈ bs, x < 256) :
    pyB64Decode (b64EncodeBytes bs) = .ok bs := by
  unfold pyB64Decode b64EncodeBytes
  rw [show (String.mk (encodeGroups bs)).data = encodeGroups bs from rfl]
  rw [List.filter_eq_self.mpr (encodeGroups_keep bs h)]
  exact decodeGroups_encodeGroups bs h

/-- Lookup through one conditional insert. -/
theorem lookup_optField (key : String) (v : Option J) (k : String) :
    (optField key v).lookup k = if key = k then v else none := by
  cases v with
  | none => simp [optField, JFields.lookup]
  | some j => simp [optField, JFields.lookup]

/-- Lookup through one conditional insert followed by the rest of the
chain. -/
theorem lookup_append_optField (key : String) (v : Option J) (b : JFields) (k : String) :
    ((optField key v).append b).lookup k =
      if key = k then (match v with | some j => some j | none => b.lookup k)
      else b.lookup k := by
  cases v with
  | none => simp [optField, JFields.append]
  | some j => simp [optField, JFields.append, JFields.lookup]

/-- The `esbBody` field is always present and holds the payload. -/
theorem build_esb_data_lookup_esbBody (p : J) (a : Option String) (s : Option Bool)
    (m : Option String) (e : Option (List Int)) (v : Option (List String)) :
    (build_esb_data p a s m e v).lookup "esbBody" = some p := by
  simp [build_esb_data, JFields.lookup]

/-- `apiCode` is present exactly when the argument is truthy. -/
theorem build_esb_data_lookup_apiCode (p : J) (a : Option String) (s : Option Bool)
    (m : Option String) (e : Option (List Int)) (v : Option (List String)) :
    (build_esb_data p a s m e v).lookup "apiCode" = (truthyStr a).map J.str := by
  cases ha : truthyStr a with
  | none =>
      simp [build_esb_data, JFields.lookup, lookup_append_optField, lookup_optField, ha]
  | some s0 =>
      simp [build_esb_data, JFields.lookup, lookup_append_optField, ha]

/-- `success` is present exactly when the argument is not `None`; an
explicit `false` is kept. -/
theorem build_esb_data_lookup_success (p : J) (a : Option String) (s : Option Bool)
    (m : Option String) (e : Option (List Int)) (v : Option (List String)) :
    (build_esb_data p a s m e v).lookup "success" = s.map J.bool := by
  cases hs : s with
  | none =>
      simp [build_esb_data, JFields.lookup, lookup_append_optField, lookup_optField]
  | some b =>
      simp [build_esb_data, JFields.lookup, lookup_append_optField]

/-- `message` is present exactly when the argument is truthy. -/
theorem build_esb_data_lookup_message (p : J) (a : Option String) (s : Option Bool)
    (m : Option String) (e : Option (List Int)) (v : Option (List String)) :
    (build_esb_data p a s m e v).lookup "message" = (truthyStr m).map J.str := by
  cases hm : truthyStr m with
  | none =>
      simp [build_esb_data, JFields.lookup, lookup_append_optField, lookup_optField, hm]
  | some s0 =>
      simp [build_esb_data, JFields.lookup, lookup_append_optField, hm]

/-- `errors` is present exactly when the argument is truthy. -/
theorem build_esb_data_lookup_errors (p : J) (a : Option String) (s : Option Bool)
    (m : Option String) (e : Option (List Int)) (v : Option (List String)) :
    (build_esb_data p a s m e v).lookup "errors"
      = (truthyList e).map (fun l => J.arr (JList.ofInts l)) := by
  cases he : truthyList e with
  | none =>
      simp [build_esb_data, JFields.lookup, lookup_append_optField, lookup_optField, he]
  | some l =>
      simp [build_esb_data, JFields.lookup, lookup_append_optField, he]

/-- `validationErrors` is present exactly when the argument is truthy. -/
theorem build_esb_data_lookup_validationErrors (p : J) (a : Option String)
    (s : Option Bool) (m : Option String) (e : Option (List Int))
    (v : Option (List String)) :
    (build_esb_data p a s m e v).lookup "validationErrors"
      = (truthyList v).map (fun l => J.arr (JList.ofStrs l)) := by
  cases hv : truthyList v with
  | none =>
      simp [build_esb_data, JFields.lookup, lookup_append_optField, lookup_optField, hv]
  | some l =>
      simp [build_esb_data, JFields.lookup, lookup_append_optField, lookup_optField, hv]

/-- Two builder calls whose data dicts agree as key/value maps produce
syntactically identical data dicts: the builder inserts every field at
one fixed position, so the maps determine the dict. -/
theorem build_esb_data_eq_of_lookup_eq (p1 p2 : J) (a1 a2 : Option String)
    (s1 s2 : Option Bool) (m1 m2 : Option String) (e1 e2 : Option (List Int))
    (v1 v2 : Option (List String))
    (h : ∀ k, (build_esb_data p1 a1 s1 m1 e1 v1).lookup k
            = (build_esb_data p2 a2 s2 m2 e2 v2).lookup k) :
    build_esb_data p1 a1 s1 m1 e1 v1 = build_esb_data p2 a2 s2 m2 e2 v2 := by
  have hp : p1 = p2 := by
    have := h "esbBody"
    rw [build_esb_data_lookup_esbBody, build_esb_data_lookup_esbBody] at this
    exact Option.some.inj this
  have ha : (truthyStr a1).map J.str = (truthyStr a2).map J.str := by
    have := h "apiCode"
    rwa [build_esb_data_lookup_apiCode, build_esb_data_lookup_apiCode] at this
  have hs : s1.map J.bool = s2.map J.bool := by
    have := h "success"
    rwa [build_esb_data_lookup_success, build_esb_data_lookup_success] at this
  have hm : (truthyStr m1).map J.str = (truthyStr m2).map J.str := by
    have := h "message"
    rwa [build_esb_data_lookup_message, build_esb_data_lookup_message] at this
  have he : (truthyList e1).map (fun l => J.arr (JList.ofInts l))
      = (truthyList e2).map (fun l => J.arr (JList.ofInts l)) := by
    have := h "errors"
    rwa [build_esb_data_lookup_errors, build_esb_data_lookup_errors] at this
  have hv : (truthyList v1).map (fun l => J.arr (JList.ofStrs l))
      = (truthyList v2).map (fun l => J.arr (JList.ofStrs l)) := by
    have := h "validationErrors"
    rwa [build_esb_data_lookup_validationErrors,
         build_esb_data_lookup_validationErrors] at this
  unfold build_esb_data
  rw [hp, ha, hs, hm, he, hv]

/-- Keys distribute over the chain concatenation. -/
theorem keys_append : ∀ a b : JFields, (a.append b).keys = a.keys ++ b.keys
  | .nil, b => by simp [JFields.append, JFields.keys]
  | .cons k v tl, b => by simp [JFields.append, JFields.keys, keys_append tl b]

/-- A conditional insert contributes at most its own key. -/
theorem keys_optField (key : String) (v : Option J) :
    List.Sublist (optField key v).keys [key] := by
  cases v with
  | none => simp [optField, JFields.keys]
  | some j => simp [optField, JFields.keys]

/-- The keys of the built data dict always follow the one declared order:
`esbBody`, `apiCode`, `success`, `message`, `errors`, `validationErrors`. -/
theorem build_esb_data_keys_sublist (p : J) (a : Option String) (s : Option Bool)
    (m : Option String) (e : Option (List Int)) (v : Option (List String)) :
    List.Sublist (build_esb_data p a s m e v).keys
      ["esbBody", "apiCode", "success", "message", "errors", "validationErrors"] := by
  unfold build_esb_data
  show List.Sublist (JFields.cons "esbBody" p _).keys
    ("esbBody" :: (["apiCode"] ++ (["success"] ++ (["message"] ++ (["errors"] ++ ["validationErrors"])))))
  rw [JFields.keys]
  refine List.Sublist.cons₂ _ ?_
  rw [keys_append]
  refine List.Sublist.append (keys_optField _ _) ?_
  rw [keys_append]
  refine List.Sublist.append (keys_optField _ _) ?_
  rw [keys_append]
  refine List.Sublist.append (keys_optField _ _) ?_
  rw [keys_append]
  exact List.Sublist.append (keys_optField _ _) (keys_optField _ _)

/-- A caller that has not yet returned. -/
def activePc : CallerPc → Bool
  | .finished => false
  | _ => true

/-- Number of callers that have not yet returned. -/
def activeCount (pcs : List CallerPc) : Nat :=
  pcs.countP activePc

/-- Overwriting one slot with an element of equal predicate value keeps
the count. -/
theorem countP_set_eq {α : Type} (p : α → Bool) :
    ∀ (l : List α) (i : Nat) (a y : α), l[i]? = some y → p a = p y →
      (l.set i a).countP p = l.countP p
  | [], i, _, _, hy, _ => by simp at hy
  | x :: tl, 0, a, y, hy, hpa => by
      simp at hy
      subst hy
      simp [List.set, List.countP_cons, hpa]
  | x :: tl, i + 1, a, y, hy, hpa => by
      simp at hy
      simp [List.set, List.countP_cons, countP_set_eq p tl i a y hy hpa]

/-- Overwriting a counted slot with an uncounted element drops the count
by one. -/
theorem countP_set_toFalse {α : Type} (p : α → Bool) :
    ∀ (l : List α) (i : Nat) (a y : α), l[i]? = some y → p y = true →
      p a = false → (l.set i a).countP p + 1 = l.countP p
  | [], i, _, _, hy, _, _ => by simp at hy
  | x :: tl, 0, a, y, hy, hpy, hpa => by
      simp at hy
      subst hy
      simp [List.set, List.countP_cons, hpy, hpa]
  | x :: tl, i + 1, a, y, hy, hpy, hpa => by
      simp at hy
      have := countP_set_toFalse p tl i a y hy hpy hpa
      simp [List.set, List.countP_cons]
      omega

/-- One step never increases `httpCalls + activeCount`: an HTTP call is
only ever made by a caller that simultaneously stops being active. -/
theorem get_instance_step_measure (now life : Int) (i : Nat) (s : ConcState) :
    (get_instance_step now life i s).httpCalls
      + activeCount (get_instance_step now life i s).pcs
    ≤ s.httpCalls + activeCount s.pcs := by
  cases hy : s.pcs[i]? with
  | none => simp [get_instance_step, hy]
  | some pc =>
    cases pc with
    | check =>
        by_cases hle : s.token_expiry ≤ now
        · have heq := countP_set_eq activePc s.pcs i CallerPc.refreshing CallerPc.check hy rfl
          simp [get_instance_step, hy, if_pos hle, activeCount, heq]
        · have hdec := countP_set_toFalse activePc s.pcs i CallerPc.finished CallerPc.check hy rfl rfl
          simp [get_instance_step, hy, if_neg hle, activeCount]
          omega
    | refreshing =>
        have hdec := countP_set_toFalse activePc s.pcs i CallerPc.finished CallerPc.refreshing hy rfl rfl
        simp [get_instance_step, hy, activeCount]
        omega
    | finished => simp [get_instance_step, hy]

/-- The measure is monotone along any schedule. -/
theorem get_instance_run_measure (now life : Int) :
    ∀ (sched : List Nat) (s : ConcState),
      (get_instance_run now life sched s).httpCalls
        + activeCount (get_instance_run now life sched s).pcs
      ≤ s.httpCalls + activeCount s.pcs
  | [], _ => le_refl _
  | i :: tl, s => by
      have hstep : get_instance_run now life (i :: tl) s
          = get_instance_run now life tl (get_instance_step now life i s) := rfl
      rw [hstep]
      exact le_trans (get_instance_run_measure now life tl (get_instance_step now life i s))
        (get_instance_step_measure now life i s)

/-- All-`check` initial states have `n` active callers. -/
theorem activeCount_replicate (n : Nat) :
    activeCount (List.replicate n CallerPc.check) = n := by
  induction n with
  | zero => rfl
  | succ k ih =>
      simp only [List.replicate_succ, activeCount, List.countP_cons] at *
      simp [activePc, ih]

/-- An inbound envelope whose signature "CA==" decodes to the byte 8,
which the demo key pair (accepting only 7) rejects. -/
def wrongSigReq : JFields :=
  .cons "data" (J.obj (.cons "esbBody" (J.obj .nil) .nil))
    (.cons "signature" (J.str "CA==") .nil)

/-- A demo inbound processing callback. -/
def fbDemo : J → Bool × Option String × J :=
  fun _ => (true, some "ok", J.obj .nil)

/-- A 2xx response body that parses but whose envelope signature "CA=="
does not verify under the demo key pair. -/
def badSigRespBody : J :=
  J.obj (.cons "data"
      (J.obj (.cons "success" (J.bool true) (.cons "esbBody" (J.obj .nil) .nil)))
    (.cons "signature" (J.str "CA==") .nil))

/-- C1: the claim "consume never raises to its caller" fails on the code
at a transport failure: when the POST itself raises, the `except`
branch's f-string reads the local `response`, which was never bound, so
`consume` raises `UnboundLocalError` instead of returning a
`ConsumeResult` with `success=false`.  (Non-2xx statuses, malformed JSON
bodies and signature-verification failures are indeed converted to
failure results, as the other branches of `consume` show.) -/
theorem consume_raises_on_transport_failure :
    (consume demoKeyPair (some (J.str "T")) (J.obj .nil) "CODE1" "rid-1"
        PostOutcome.raised).result = Except.error PyExc.unboundLocal := rfl

/-- C2 counterexample: two concurrent `get_instance` callers that both
pass the expiry check before either refresh completes make two
token-endpoint HTTP calls for one expiry event — there is no refresh
mutex (`GovEsb._lock` only guards `__new__`), so "exactly one HTTP call"
is false. -/
theorem get_instance_concurrent_double_refresh :
    (get_instance_run 100 3600 [0, 1, 0, 1]
        { token_expiry := 0, httpCalls := 0,
          pcs := [CallerPc.check, CallerPc.check] }).httpCalls = 2 := rfl

/-- C2 amended: token refresh in `get_instance` is not serialized by any
mutex; each caller that observes an expired token performs its own
refresh, so `n` concurrent callers make at most `n` token-endpoint HTTP
calls per expiry event (and interleavings reaching that bound exist, as
the counterexample shows two calls for two callers). -/
theorem get_instance_refresh_calls_at_most_callers (now life expiry0 : Int)
    (n : Nat) (sched : List Nat) :
    (get_instance_run now life sched
        { token_expiry := expiry0, httpCalls := 0,
          pcs := List.replicate n CallerPc.check }).httpCalls ≤ n := by
  have h := get_instance_run_measure now life sched
    { token_expiry := expiry0, httpCalls := 0,
      pcs := List.replicate n CallerPc.check }
  rw [activeCount_replicate] at h
  dsimp only at h
  omega

/-- The effect trace of `consume` always starts with the bus POST and is
one of four literal shapes, none containing a token-endpoint request. -/
theorem consume_effects_shape (kp : ECKeyPair) (access_token : Option J)
    (payload : J) (api_code : String) (freshId : String) (outcome : PostOutcome) :
    (consume kp access_token payload api_code freshId outcome).effects
        = [ConsumeEffect.postToBus access_token
            (build_esb_payload kp payload (some api_code) none none none none)]
    ∨ (consume kp access_token payload api_code freshId outcome).effects
        = [ConsumeEffect.postToBus access_token
            (build_esb_payload kp payload (some api_code) none none none none),
           ConsumeEffect.logException]
    ∨ (consume kp access_token payload api_code freshId outcome).effects
        = [ConsumeEffect.postToBus access_token
            (build_esb_payload kp payload (some api_code) none none none none),
           ConsumeEffect.logCall]
    ∨ (consume kp access_token payload api_code freshId outcome).effects
        = [ConsumeEffect.postToBus access_token
            (build_esb_payload kp payload (some api_code) none none none none),
           ConsumeEffect.logCall, ConsumeEffect.logException] := by
  cases outcome with
  | raised => simp [consume]
  | completed resp =>
      simp only [consume]
      repeat' split
      all_goals simp

/-- C3 amended: `consume` performs no token acquisition or validity check
at all — its first effect is always the POST to the bus, carrying the
stored token value verbatim (even `None`), and no token-endpoint request
appears in any of its traces; the "token unavailable" result of the
claim does not exist in the code. -/
theorem consume_never_acquires_token (kp : ECKeyPair) (access_token : Option J)
    (payload : J) (api_code : String) (freshId : String) (outcome : PostOutcome) :
    (consume kp access_token payload api_code freshId outcome).effects.head?
      = some (ConsumeEffect.postToBus access_token
          (build_esb_payload kp payload (some api_code) none none none none))
    ∧ ConsumeEffect.tokenRequest
        ∉ (consume kp access_token payload api_code freshId outcome).effects := by
  rcases consume_effects_shape kp access_token payload api_code freshId outcome with
    h | h | h | h <;> rw [h] <;> exact ⟨rfl, by simp⟩

/-- C3 counterexample: with no token ever obtained (`access_token` is
`None`), `consume` still posts to the bus (with a `Bearer None` header),
and on failure returns the message "Failed to consume from apiCode:
CODE1" — not "token unavailable"; no token request precedes the post. -/
theorem consume_posts_to_bus_without_token :
    (consume demoKeyPair none (J.obj .nil) "CODE1" "rid-1"
        (PostOutcome.completed { is2xx := false, body := none })).effects
      = [ConsumeEffect.postToBus none
            (build_esb_payload demoKeyPair (J.obj .nil) (some "CODE1") none none none none),
         ConsumeEffect.logException]
    ∧ (consume demoKeyPair none (J.obj .nil) "CODE1" "rid-1"
        (PostOutcome.completed { is2xx := false, body := none })).result
      = .ok (consumeFailData "CODE1" "rid-1")
    ∧ (consumeFailData "CODE1" "rid-1").message ≠ some "token unavailable" :=
  ⟨rfl, rfl, by decide⟩

/-- C4 counterexample: an inbound envelope whose signature "abc" is not
valid base64 certainly does not verify over its data, yet `aconsume`
produces no failure acknowledgment at all: `verify_signature` raises
`binascii.Error`, the exception propagates, and `process_feedback` is
not called — but neither is the promised acknowledgment returned. -/
theorem aconsume_malformed_signature_raises :
    aconsume demoKeyPair
      (.cons "data" (J.obj (.cons "esbBody" (J.obj .nil) .nil))
        (.cons "signature" (J.str "abc") .nil))
      fbDemo
      = Except.error PyExc.binasciiError := rfl

/-- C4 amended: for every inbound envelope whose signature is well-formed
base64 but fails cryptographic verification (`verify_signature` returns
`False`), `aconsume` returns the acknowledgment whose data is exactly
`esbBody=, success=false, message="Signature verification failed!"`,
and the result is independent of the supplied `process_feedback` — the
callback is never invoked.  (A signature that fails base64 decoding, or
an absent one, instead raises, per the counterexample.) -/
theorem aconsume_invalid_signature_gate (kp : ECKeyPair) (req_body : JFields)
    (fb : J → Bool × Option String × J)
    (h : verify_signature kp (JFields.lookup req_body "signature")
          ((JFields.lookup req_body "data").getD (J.obj .nil)) = .ok false) :
    (∃ env, aconsume kp req_body fb = .ok env
      ∧ env.data = JFields.cons "esbBody" (J.obj .nil)
          (JFields.cons "success" (J.bool false)
            (JFields.cons "message" (J.str "Signature verification failed!") .nil)))
    ∧ ∀ fb2, aconsume kp req_body fb2 = aconsume kp req_body fb := by
  constructor
  · refine ⟨build_esb_payload kp (J.obj .nil) none (some false)
        (some "Signature verification failed!") none none, ?_, ?_⟩
    · simp only [aconsume]
      rw [h]
    · rfl
  · intro fb2
    simp only [aconsume]
    rw [h]

/-- Witness for the C4 amended theorem at the concrete wrong-signature
request. -/
theorem aconsume_invalid_signature_gate_witness :
    ∃ env, aconsume demoKeyPair wrongSigReq fbDemo = .ok env
      ∧ env.data = JFields.cons "esbBody" (J.obj .nil)
          (JFields.cons "success" (J.bool false)
            (JFields.cons "message" (J.str "Signature verification failed!") .nil)) :=
  (aconsume_invalid_signature_gate demoKeyPair wrongSigReq fbDemo rfl).1

/-- C5 counterexample: `verify_signature` is not total — on the
malformed signature string "abc" (not valid base64), `b64decode` raises
`binascii.Error`, which the function does not catch (its `try` only
catches `InvalidSignature`), so the exception reaches the caller instead
of yielding `False`. -/
theorem verify_signature_raises_on_malformed_b64 :
    verify_signature demoKeyPair (some (J.str "abc")) (J.obj .nil)
      = Except.error PyExc.binasciiError := rfl

/-- C5 amended: `verify_signature` is exception-free exactly on
signatures that decode as base64: for any decodable signature string and
any payload it returns the library verdict (cryptographic or curve
mismatch gives `ok false`, never an exception); base64 decode failures
and non-string signatures raise to the caller. -/
theorem verify_signature_no_raise_on_decodable (kp : ECKeyPair) (s : String)
    (payload : J) (bs : List Nat) (h : pyB64Decode s = .ok bs) :
    verify_signature kp (some (J.str s)) payload
      = .ok (kp.ecVerifyOk bs (trim_payload payload)) := by
  simp only [verify_signature]
  rw [h]

/-- Witness for the C5 amended theorem at the decodable signature
"CA==". -/
theorem verify_signature_no_raise_on_decodable_witness :
    verify_signature demoKeyPair (some (J.str "CA==")) (J.obj .nil)
      = .ok (demoKeyPair.ecVerifyOk [8] (trim_payload (J.obj .nil))) :=
  verify_signature_no_raise_on_decodable demoKeyPair "CA==" (J.obj .nil) [8] rfl

/-- C6 counterexample: the caller explicitly supplies the non-absent
value `api_code = ""`, yet the builder's truthiness test (`if api_code:`)
drops the field — presence is not "explicitly supplied iff included". -/
theorem build_esb_payload_drops_explicit_empty_api_code :
    ((build_esb_payload demoKeyPair (J.obj .nil) (some "") none none none
        none).data).lookup "apiCode" = none := rfl

/-- C6 amended: `success` is included iff supplied non-`None` (an
explicit `false` is kept, an absent one omitted), but `apiCode`,
`message`, `errors` and `validationErrors` are included iff their value
is truthy — an explicitly supplied empty string or empty list is omitted
just like an absent argument. -/
theorem build_esb_payload_field_presence (kp : ECKeyPair) (p : J)
    (a : Option String) (s : Option Bool) (m : Option String)
    (e : Option (List Int)) (v : Option (List String)) :
    (build_esb_payload kp p a s m e v).data.lookup "esbBody" = some p
    ∧ (build_esb_payload kp p a s m e v).data.lookup "apiCode" = (truthyStr a).map J.str
    ∧ (build_esb_payload kp p a s m e v).data.lookup "success" = s.map J.bool
    ∧ (build_esb_payload kp p a s m e v).data.lookup "message" = (truthyStr m).map J.str
    ∧ (build_esb_payload kp p a s m e v).data.lookup "errors"
        = (truthyList e).map (fun l => J.arr (JList.ofInts l))
    ∧ (build_esb_payload kp p a s m e v).data.lookup "validationErrors"
        = (truthyList v).map (fun l => J.arr (JList.ofStrs l)) :=
  ⟨build_esb_data_lookup_esbBody p a s m e v,
   build_esb_data_lookup_apiCode p a s m e v,
   build_esb_data_lookup_success p a s m e v,
   build_esb_data_lookup_message p a s m e v,
   build_esb_data_lookup_errors p a s m e v,
   build_esb_data_lookup_validationErrors p a s m e v⟩

/-- C7 counterexample: a 2xx token response `{"access_token": "NEW"}`
without `expires_in` makes the refresh fail (`False` is returned), but
only after `self.access_token` was already overwritten — the
`(access_token, token_expiry)` pair is left partially written, with the
new token paired with the stale expiry. -/
theorem request_esb_token_partial_write :
    request_esb_token
        { access_token := some (J.str "OLD"), token_expiry := some 1000 } 5000
        (TokenOutcome.respJson (J.obj (.cons "access_token" (J.str "NEW") .nil)))
      = ({ access_token := some (J.str "NEW"), token_expiry := some 1000 }, false) := rfl

/-- C7 amended: on a failed refresh `token_expiry` always keeps its prior
value (and a failure before the `access_token` assignment leaves the
whole state untouched), while on a successful refresh both fields are
replaced together; but `access_token` alone can be overwritten by a
failing refresh whose response carried `access_token` without a usable
`expires_in`, so the pair is not updated atomically. -/
theorem request_esb_token_write_shape (st : TokenState) (now : Int)
    (outcome : TokenOutcome) :
    ((request_esb_token st now outcome).2 = false
      ∧ (request_esb_token st now outcome).1.token_expiry = st.token_expiry)
    ∨ ((request_esb_token st now outcome).2 = true
      ∧ ∃ tok e, (request_esb_token st now outcome).1
          = { access_token := some tok, token_expiry := some (now + e - 60) }) := by
  cases outcome with
  | raised => exact Or.inl ⟨rfl, rfl⟩
  | respJson body =>
      cases h1 : jIndex body "access_token" with
      | error e1 =>
          exact Or.inl ⟨by simp [request_esb_token, h1], by simp [request_esb_token, h1]⟩
      | ok tok =>
          cases h2 : jIndex body "expires_in" with
          | error e2 =>
              exact Or.inl ⟨by simp [request_esb_token, h1, h2],
                by simp [request_esb_token, h1, h2]⟩
          | ok v =>
              cases v with
              | num e3 =>
                  exact Or.inr ⟨by simp [request_esb_token, h1, h2], tok, e3,
                    by simp [request_esb_token, h1, h2]⟩
              | null =>
                  exact Or.inl ⟨by simp [request_esb_token, h1, h2],
                    by simp [request_esb_token, h1, h2]⟩
              | bool b =>
                  exact Or.inl ⟨by simp [request_esb_token, h1, h2],
                    by simp [request_esb_token, h1, h2]⟩
              | str s2 =>
                  exact Or.inl ⟨by simp [request_esb_token, h1, h2],
                    by simp [request_esb_token, h1, h2]⟩
              | arr xs =>
                  exact Or.inl ⟨by simp [request_esb_token, h1, h2],
                    by simp [request_esb_token, h1, h2]⟩
              | obj fs =>
                  exact Or.inl ⟨by simp [request_esb_token, h1, h2],
                    by simp [request_esb_token, h1, h2]⟩

/-- C8: the sign/verify round trip holds through the module's glue code:
both `sign_payload` and `verify_signature` canonicalize the payload with
the same `trim_payload`, and the base64 encode/decode round trips, so
under the EC library's own contract (a signature produced by the private
key verifies under the matching public key — `hsound`) and the fact that
signatures are byte strings (`hbytes`), verifying a payload's own
signature yields `true`. -/
theorem sign_payload_verify_signature_roundtrip (kp : ECKeyPair) (payload : J)
    (hsound : ∀ m, kp.ecVerifyOk (kp.sign m) m = true)
    (hbytes : ∀ m, ∀ x ∈ kp.sign m, x < 256) :
    verify_signature kp (some (J.str (sign_payload kp payload))) payload
      = .ok true := by
  simp only [verify_signature, sign_payload]
  rw [pyB64Decode_b64EncodeBytes (kp.sign (trim_payload payload))
    (hbytes (trim_payload payload))]
  show Except.ok (kp.ecVerifyOk (kp.sign (trim_payload payload))
    (trim_payload payload)) = Except.ok true
  rw [hsound (trim_payload payload)]

/-- Witness for the C8 round trip at the demo key pair and an empty
payload. -/
theorem sign_payload_verify_signature_roundtrip_witness :
    verify_signature demoKeyPair
        (some (J.str (sign_payload demoKeyPair (J.obj .nil)))) (J.obj .nil)
      = .ok true :=
  sign_payload_verify_signature_roundtrip demoKeyPair (J.obj .nil)
    (fun _ => rfl)
    (by intro m x hx; simp [demoKeyPair] at hx; omega)

/-- C9 amended: when a 2xx response's envelope signature fails to
verify, `consume` raises `Exception('Signature verification failed!')`
internally, catches it in its own `except`, and returns the uniform
failure result whose message is "Failed to consume from apiCode:
{apiCode}" — the fixed signature-failure text reaches only the log,
never the returned message. -/
theorem consume_bad_signature_result (kp : ECKeyPair) (access_token : Option J)
    (payload : J) (api_code : String) (freshId : String) (body sigJ dataJ : J)
    (hsig : jIndex body "signature" = .ok sigJ)
    (hdata : jIndex body "data" = .ok dataJ)
    (hver : verify_signature kp (some sigJ) dataJ = .ok false) :
    (consume kp access_token payload api_code freshId
        (PostOutcome.completed { is2xx := true, body := some body })).result
      = .ok (consumeFailData api_code freshId) := by
  simp only [consume, hsig, hdata, hver]
  simp

/-- Witness for the C9 amended theorem at the concrete bad-signature
response. -/
theorem consume_bad_signature_result_witness :
    (consume demoKeyPair (some (J.str "T")) (J.obj .nil) "CODE1" "rid-1"
        (PostOutcome.completed { is2xx := true, body := some badSigRespBody })).result
      = .ok (consumeFailData "CODE1" "rid-1") :=
  consume_bad_signature_result demoKeyPair (some (J.str "T")) (J.obj .nil) "CODE1"
    "rid-1" badSigRespBody (J.str "CA==")
    (J.obj (.cons "success" (J.bool true) (.cons "esbBody" (J.obj .nil) .nil)))
    rfl rfl rfl

/-- C9 counterexample: at a concrete 2xx response with a bad envelope
signature, `consume` returns a failure result whose message is "Failed
to consume from apiCode: CODE1" and not "Signature verification
failed!", refuting the claimed result message. -/
theorem consume_bad_signature_message_not_fixed :
    (consume demoKeyPair (some (J.str "T")) (J.obj .nil) "CODE1" "rid-1"
        (PostOutcome.completed { is2xx := true, body := some badSigRespBody })).result
      = .ok (consumeFailData "CODE1" "rid-1")
    ∧ (consumeFailData "CODE1" "rid-1").message
        = some "Failed to consume from apiCode: CODE1"
    ∧ (consumeFailData "CODE1" "rid-1").message
        ≠ some "Signature verification failed!" :=
  ⟨rfl, rfl, by decide⟩

/-- C10: the canonical bytes signed by the envelope builder use one fixed
field order: the data keys are always a subsequence of `esbBody,
apiCode, success, message, errors, validationErrors` in that declared
order (the serializer emits them with comma/colon separators and no
whitespace), and two builder envelopes that agree on their present
fields and values — as key/value maps — canonicalize to byte-identical
strings, even when built with different key pairs. -/
theorem build_esb_payload_canonical_order (kp1 kp2 : ECKeyPair) (p1 p2 : J)
    (a1 a2 : Option String) (s1 s2 : Option Bool) (m1 m2 : Option String)
    (e1 e2 : Option (List Int)) (v1 v2 : Option (List String))
    (h : ∀ k, (build_esb_payload kp1 p1 a1 s1 m1 e1 v1).data.lookup k
            = (build_esb_payload kp2 p2 a2 s2 m2 e2 v2).data.lookup k) :
    trim_payload (J.obj (build_esb_payload kp1 p1 a1 s1 m1 e1 v1).data)
      = trim_payload (J.obj (build_esb_payload kp2 p2 a2 s2 m2 e2 v2).data)
    ∧ List.Sublist (build_esb_payload kp1 p1 a1 s1 m1 e1 v1).data.keys
        ["esbBody", "apiCode", "success", "message", "errors", "validationErrors"] := by
  have hd : build_esb_data p1 a1 s1 m1 e1 v1 = build_esb_data p2 a2 s2 m2 e2 v2 :=
    build_esb_data_eq_of_lookup_eq p1 p2 a1 a2 s1 s2 m1 m2 e1 e2 v1 v2 h
  constructor
  · show trim_payload (J.obj (build_esb_data p1 a1 s1 m1 e1 v1)) = _
    rw [hd]
    rfl
  · exact build_esb_data_keys_sublist p1 a1 s1 m1 e1 v1

/-- Witness for C10: two builds whose raw arguments differ (`some ""`
versus `None`, `some []` versus `None`) but whose present fields agree
canonicalize identically. -/
theorem build_esb_payload_canonical_order_witness :
    trim_payload (J.obj (build_esb_payload demoKeyPair (J.num 1) (some "")
          (some false) none (some []) none).data)
      = trim_payload (J.obj (build_esb_payload demoKeyPair (J.num 1) none
          (some false) (some "") none (some [])).data)
    ∧ List.Sublist (build_esb_payload demoKeyPair (J.num 1) (some "")
          (some false) none (some []) none).data.keys
        ["esbBody", "apiCode", "success", "message", "errors", "validationErrors"] :=
  build_esb_payload_canonical_order demoKeyPair demoKeyPair (J.num 1) (J.num 1)
    (some "") none (some false) (some false) none (some "") (some []) none
    none (some []) (fun _ => rfl)
